import Mathlib

/-
  Verification development for the "scout" service: a collection of
  scouts (birthday / Spotify episodes / flight deals) that fetch records
  from external providers, filter them by date or price, format them as a
  text prompt, and place voice calls through the Vapi API.

  The definitions below are shallow embeddings of the Python source:
    * src/vapi_call.py              (VapiCaller)
    * src/scouts/birthdayScout.py   (BirthdayScout)
    * src/scouts/spotifyScout.py    (SpotifyScout)
    * src/scouts/googleFlightsScout.py (GoogleFlightsScout)
    * src/api.py                    (FastAPI controllers)
    * src/models/scout.py           (generic Scout model)
  External HTTP interactions are parameters (outcome values / response
  functions); time is passed explicitly (seconds since the proleptic
  Gregorian day-0 midnight, mirroring CPython datetime comparisons).
-/

/-! ## Python basics -/

/-- Python truthiness of an optional string: `None` and `""` are falsy
(used for `os.getenv` results in the config checks). -/
def truthy : Option String → Bool
  | none => false
  | some s => !(s == "")

/-- Splitting a character list on a separator, accumulator-style; mirrors
`str.split` with a one-character separator (empty input gives `[[]]`,
adjacent separators give empty fields). -/
def splitOnCharAux (sep : Char) : List Char → List Char → List (List Char)
  | [], acc => [acc.reverse]
  | c :: rest, acc =>
    if c == sep then acc.reverse :: splitOnCharAux sep rest []
    else splitOnCharAux sep rest (c :: acc)

def splitOnChar (sep : Char) (s : List Char) : List (List Char) :=
  splitOnCharAux sep s []

/-- Decimal value of a nonempty all-digit character list (`int(s)` for the
strings that pass an `isdigit` check); `none` otherwise. -/
def digitsToNat (cs : List Char) : Option Nat :=
  if !cs.isEmpty && cs.all Char.isDigit then
    some (cs.foldl (fun n c => n * 10 + (c.toNat - 48)) 0)
  else none

/-- Decimal rendering of a natural number (`str(n)` in Python), via a
fuel-bounded digit loop so that it evaluates inside the kernel. -/
def natToCharsAux : Nat → Nat → List Char → List Char
  | 0, _, acc => acc
  | fuel + 1, n, acc =>
    if n == 0 then acc
    else natToCharsAux fuel (n / 10) (Char.ofNat (48 + n % 10) :: acc)

def natToStr (n : Nat) : String :=
  if n == 0 then "0" else String.mk (natToCharsAux (n + 1) n [])

/-- Python `str.isdigit()` restricted to ASCII digit strings (all values in
this code base are plain ASCII spreadsheet cells): nonempty and all digits. -/
def pyIsDigit (s : String) : Bool :=
  !s.data.isEmpty && s.data.all Char.isDigit

/-! ## Dates: the subset of `datetime` used by the scouts

`datetime.strptime(s, "%Y-%m-%d")` compiles to the regex
`(\d\d\d\d)-(1[0-2]|0[1-9]|[1-9])-(3[01]|[12]\d|0[1-9]|[1-9])` matched
against the full string, then `datetime(year, month, day)` validates
`1 <= year` and `day <= days_in_month(year, month)`, raising `ValueError`
otherwise.  Comparisons between `datetime` values compare instants, so we
embed a parsed date as its midnight instant in seconds. -/

structure Ymd where
  year : Nat
  month : Nat
  day : Nat
deriving DecidableEq

def isLeapYear (y : Nat) : Bool :=
  y % 4 == 0 && (y % 100 != 0 || y % 400 == 0)

def daysInMonth (y m : Nat) : Nat :=
  if m == 2 then (if isLeapYear y then 29 else 28)
  else if m == 4 || m == 6 || m == 9 || m == 11 then 30
  else 31

/-- Days in year `y` strictly before month `m`. -/
def daysBeforeMonth (y m : Nat) : Nat :=
  (List.range (m - 1)).foldl (fun acc i => acc + daysInMonth y (i + 1)) 0

/-- Proleptic-Gregorian ordinal of a date, with 0001-01-01 = day 1
(the same convention as CPython `date.toordinal`). -/
def toOrdinal (y m d : Nat) : Nat :=
  365 * (y - 1) + ((y - 1) / 4 - (y - 1) / 100 + (y - 1) / 400)
    + daysBeforeMonth y m + d

/-- Midnight instant of a date, in seconds on the `toOrdinal` axis. -/
def tsOfYmd (x : Ymd) : Int :=
  (toOrdinal x.year x.month x.day : Int) * 86400

/-- `datetime.strptime(s, "%Y-%m-%d")`: the three dash-separated fields with
the regex shapes above, then constructor validation.  `none` models the
`ValueError` branch. -/
def strptimeYmdParts : List (List Char) → Option Ymd
  | [ys, ms, ds] =>
    if ys.length == 4 && ys.all Char.isDigit
        && (ms.length == 1 || ms.length == 2) && ms.all Char.isDigit
        && (ds.length == 1 || ds.length == 2) && ds.all Char.isDigit then
      match digitsToNat ys, digitsToNat ms, digitsToNat ds with
      | some y, some m, some d =>
        if 1 ≤ y ∧ 1 ≤ m ∧ m ≤ 12 ∧ 1 ≤ d ∧ d ≤ 31 ∧ d ≤ daysInMonth y m
        then some ⟨y, m, d⟩ else none
      | _, _, _ => none
    else none
  | _ => none

def strptimeYmd (s : String) : Option Ymd :=
  strptimeYmdParts (splitOnChar (Char.ofNat 45) s.data)

/-- Calendar addition of `n` days (the effect of `timedelta(days=n)` on a
midnight `datetime`, read back as a calendar date). -/
def addDaysYmd (x : Ymd) (n : Nat) : Ymd :=
  let rem := daysInMonth x.year x.month - x.day
  if h : n ≤ rem then ⟨x.year, x.month, x.day + n⟩
  else
    let next : Ymd := if x.month == 12 then ⟨x.year + 1, 1, 1⟩
      else ⟨x.year, x.month + 1, 1⟩
    addDaysYmd next (n - (rem + 1))
termination_by n
decreasing_by omega

def pad2 (n : Nat) : String :=
  if n < 10 then "0" ++ natToStr n else natToStr n

def pad4 (n : Nat) : String :=
  if n < 10 then "000" ++ natToStr n
  else if n < 100 then "00" ++ natToStr n
  else if n < 1000 then "0" ++ natToStr n
  else natToStr n

/-- `strftime("%Y-%m-%d")`. -/
def strftimeYmd (x : Ymd) : String :=
  pad4 x.year ++ "-" ++ pad2 x.month ++ "-" ++ pad2 x.day

/-! ## SpotifyScout: episode records and the 60-day fetch filter
(src/scouts/spotifyScout.py, `fetch_physics_episodes`). -/

/-- An item of `search_results["episodes"]["items"]`, restricted to the keys
the scout reads via `episode.get(...)` (absent keys are modelled by the same
defaults `get` supplies; `images` / `external_urls` are carried opaquely as
they are only copied through). -/
structure RawEpisode where
  name : String
  description : String
  release_date : String
  duration_ms : Nat
  language : String
  explicit : Bool
  audio_preview_url : String
  id : String
deriving DecidableEq

/-- The `episode_record` dict built inside the fetch loop. -/
structure EpisodeRecord where
  name : String
  description : String
  release_date : String
  duration_ms : Nat
  language : String
  explicit : Bool
  audio_preview_url : String
  id : String
deriving DecidableEq

def episodeRecordOf (e : RawEpisode) : EpisodeRecord :=
  ⟨e.name, e.description, e.release_date, e.duration_ms, e.language,
    e.explicit, e.audio_preview_url, e.id⟩

def sixtyDaysSecs : Int := 60 * 86400

/-- The fetch loop of `fetch_physics_episodes` over the search items:
skip an empty `release_date`; `strptime` it (`ValueError` skips); keep the
record when `release_date >= today - timedelta(days=60)` (`now` is the
instant `datetime.now()` in seconds, the parsed date is its midnight
instant).  There is no upper bound in the source. -/
def fetch_physics_episodes_filter (now : Int) : List RawEpisode → List EpisodeRecord
  | [] => []
  | e :: rest =>
    if e.release_date == "" then fetch_physics_episodes_filter now rest
    else
      match strptimeYmd e.release_date with
      | none => fetch_physics_episodes_filter now rest
      | some d =>
        if now - sixtyDaysSecs ≤ tsOfYmd d then
          episodeRecordOf e :: fetch_physics_episodes_filter now rest
        else
          fetch_physics_episodes_filter now rest

/-- The retention condition of the loop above, as a predicate on one raw
episode. -/
def episodeWithinWindow (now : Int) (e : RawEpisode) : Bool :=
  if e.release_date == "" then false
  else
    match strptimeYmd e.release_date with
    | none => false
    | some d => decide (now - sixtyDaysSecs ≤ tsOfYmd d)

theorem fetch_physics_episodes_filter_eq (now : Int) (eps : List RawEpisode) :
    fetch_physics_episodes_filter now eps =
      eps.filterMap (fun e =>
        if episodeWithinWindow now e then some (episodeRecordOf e) else none) := by
  induction eps with
  | nil => rfl
  | cons e rest ih =>
    by_cases he : e.release_date == ""
    · have hwv : episodeWithinWindow now e = false := by
        simp [episodeWithinWindow, he]
      rw [List.filterMap_cons, hwv]
      simpa [fetch_physics_episodes_filter, he] using ih
    · cases hp : strptimeYmd e.release_date with
      | none =>
        have hwv : episodeWithinWindow now e = false := by
          simp [episodeWithinWindow, he, hp]
        rw [List.filterMap_cons, hwv]
        simpa [fetch_physics_episodes_filter, he, hp] using ih
      | some d =>
        by_cases hw : now - sixtyDaysSecs ≤ tsOfYmd d
        · have hwv : episodeWithinWindow now e = true := by
            simp [episodeWithinWindow, he, hp, hw]
          rw [List.filterMap_cons, hwv]
          simpa [fetch_physics_episodes_filter, he, hp, hw] using ih
        · have hwv : episodeWithinWindow now e = false := by
            simp [episodeWithinWindow, he, hp, hw]
          rw [List.filterMap_cons, hwv]
          simpa [fetch_physics_episodes_filter, he, hp, hw] using ih

/-! ## VapiCaller (src/vapi_call.py) -/

/-- JSON-like values for the request payload. -/
inductive JVal where
  | str (s : String)
  | num (n : Int)
  | bool (b : Bool)
  | obj (fields : List (String × JVal))
  | arr (elems : List JVal)
  | null

/-- Python `d[k] = v` on an insertion-ordered dict represented as an
association list: replace in place when the key exists, append otherwise. -/
def dictSet : List (String × JVal) → String → JVal → List (String × JVal)
  | [], k, v => [(k, v)]
  | p :: rest, k, v =>
    if p.1 == k then (k, v) :: rest else p :: dictSet rest k v

/-- Python `d.update(kvs)`. -/
def dictUpdate (d : List (String × JVal)) (kvs : List (String × JVal)) :
    List (String × JVal) :=
  kvs.foldl (fun acc p => dictSet acc p.1 p.2) d

/-- The hard-coded `phoneNumberId` in `make_call_with_variables`. -/
def vapiPhoneNumberIdLiteral : String := "43ed3451-7453-4681-aa40-ab8754875a2d"

/-- The payload dict built by `VapiCaller.make_call_with_variables`, in
source order: the five fixed entries, then `payload["name"] = call_name`
when `call_name` is truthy, then `payload.update(kwargs)`. -/
def make_call_payload (assistant_id : String) (phone_number : String)
    (variable_values : List (String × JVal)) (call_name : Option String)
    (kwargs : List (String × JVal)) : List (String × JVal) :=
  let payload : List (String × JVal) :=
    [("assistantId", JVal.str assistant_id),
     ("phoneNumberId", JVal.str vapiPhoneNumberIdLiteral),
     ("customer", JVal.obj [("number", JVal.str ("+1" ++ phone_number))]),
     ("type", JVal.str ("outboundPhoneCall")),
     ("assistantOverrides", JVal.obj [("variableValues", JVal.obj variable_values)])]
  let payload :=
    if truthy call_name then dictSet payload ("name") (JVal.str (call_name.getD (""))) else payload
  dictUpdate payload kwargs

/-- Outcome of the `requests.post` inside the `try` block: either the
request raised a `requests.exceptions.RequestException` (carrying the
status code of an attached response, when any), or a response arrived. -/
inductive HttpPostOutcome where
  | raised (msg : String) (respStatus : Option Nat)
  | response (statusCode : Nat) (body : JVal)

/-- The value returned by `make_call_with_variables`: the decoded response
JSON, or the error-shaped dict
`\x7b"error": True, "message": ..., "status_code": ...\x7d`. -/
inductive CallResult where
  | ok (body : JVal)
  | errDict (message : String) (status_code : Option Nat)

/-- Message attached to the `requests.HTTPError` raised by
`raise_for_status` (abbreviated: the claims only depend on its presence). -/
def httpErrorMessage (code : Nat) : String :=
  if code < 500 then natToStr code ++ " Client Error"
  else natToStr code ++ " Server Error"

/-- `requests.Response.raise_for_status` raises exactly for 4xx/5xx. -/
def raiseForStatusFails (code : Nat) : Bool :=
  decide (400 ≤ code) && decide (code < 600)

/-- `VapiCaller.make_call_with_variables`, given the HTTP outcome for the
posted payload: a raised `RequestException` and a `raise_for_status`
failure are both converted to the error dict; otherwise the body is
returned. -/
def make_call_with_variables (post : List (String × JVal) → HttpPostOutcome)
    (assistant_id phone_number : String)
    (variable_values : List (String × JVal)) (call_name : Option String)
    (kwargs : List (String × JVal)) : CallResult :=
  match post (make_call_payload assistant_id phone_number variable_values call_name kwargs) with
  | .raised msg respStatus => .errDict msg respStatus
  | .response code body =>
    if raiseForStatusFails code then .errDict (httpErrorMessage code) (some code)
    else .ok body

/-- Whether an HTTP outcome is a request failure (a raised
`RequestException`, including the `HTTPError` from `raise_for_status`). -/
def httpOutcomeFails : HttpPostOutcome → Bool
  | .raised _ _ => true
  | .response code _ => raiseForStatusFails code

/-- Result of evaluating `VapiCaller(...)` with a list of positional
arguments.  `__init__(self, private_api_key, assistant_id)` accepts exactly
two of them; any other count raises `TypeError` at the call site. -/
inductive VapiInitResult where
  | ok (private_api_key assistant_id : String)
  | typeError (msg : String)

def vapiCallerInit (args : List String) : VapiInitResult :=
  match args with
  | [k, a] => .ok k a
  | _ => .typeError ("__init__() takes 3 positional arguments but "
      ++ natToStr (args.length + 1) ++ " were given")

/-! ## SpotifyScout state, config checks and report
(src/scouts/spotifyScout.py). -/

structure Subscriber where
  name : String
  phone : String
deriving DecidableEq

/-- The environment variables read in `SpotifyScout.__init__`. -/
structure SpotifyEnv where
  spotify_client_id : Option String
  spotify_client_secret : Option String
  private_api_key : Option String
  spotify_assistant_id : Option String
  spotify_phone_number_id : Option String
deriving DecidableEq

/-- `SpotifyScout.check_spotify_config`. -/
def check_spotify_config (env : SpotifyEnv) : Bool :=
  truthy env.spotify_client_id && truthy env.spotify_client_secret

/-- `SpotifyScout.check_vapi_config`: the private key, the Spotify-reporter
assistant id and the Spotify-reporter phone-number id must all be truthy. -/
def spotify_check_vapi_config (env : SpotifyEnv) : Bool :=
  truthy env.private_api_key && truthy env.spotify_assistant_id
    && truthy env.spotify_phone_number_id

/-- The fixed subscriber list in `SpotifyScout.__init__`. -/
def spotify_subscribers : List Subscriber :=
  [⟨"Daniela", "9549559235"⟩]

/-- Duration rendering in `format_episodes_for_prompt`. -/
def durationStr (duration_ms : Nat) : String :=
  if duration_ms != 0 then
    natToStr (duration_ms / 1000 / 60) ++ "m " ++ natToStr (duration_ms / 1000 % 60) ++ "s"
  else "Unknown duration"

/-- `SpotifyScout.format_episodes_for_prompt`. -/
def format_episodes_for_prompt (episodes : List EpisodeRecord) : String :=
  if episodes.isEmpty then "No physics episodes released in the past week"
  else
    let formatted := episodes.filterMap (fun e =>
      if !(e.name == "") && !(e.release_date == "") then
        some (e.name ++ " (Released: " ++ e.release_date ++ ", Duration: "
          ++ durationStr e.duration_ms ++ ")")
      else none)
    if formatted.isEmpty then "No physics episodes released in the past week"
    else String.intercalate ("\n") formatted

/-- Outcome of one `report_results` run: the returned boolean, the final
`status` / `error_message` fields, whether a `VapiCaller` was successfully
constructed, and the calls placed (phone number with each call's result). -/
structure ReportOutcome where
  ret : Bool
  status : String
  error_message : Option String
  vapiConstructed : Bool
  calls : List (String × CallResult)

/-- The subscriber loop shared by the birthday and Spotify reporters:
subscribers without a phone number are skipped with a warning; every other
subscriber is called; a call whose result is the error dict only prints a
message — the loop always continues. -/
def subscriberCallLoop (callFn : Subscriber → CallResult) :
    List Subscriber → List (String × CallResult)
  | [] => []
  | s :: rest =>
    if s.phone == "" then subscriberCallLoop callFn rest
    else (s.phone, callFn s) :: subscriberCallLoop callFn rest

/-- `SpotifyScout.report_results`.  After the config and subscriber checks
it evaluates `VapiCaller(key, assistant_id, phone_number_id)` — three
positional arguments against a two-parameter `__init__` — so the
constructor raises `TypeError`, the outer `except` catches it, `status`
becomes `"error"` and `False` is returned before any call is placed. -/
def spotify_report_results (env : SpotifyEnv) (results : List EpisodeRecord)
    (subscribers : List Subscriber) (callFn : Subscriber → String → CallResult) :
    ReportOutcome :=
  if spotify_check_vapi_config env = false then
    { ret := false, status := "error", error_message := none,
      vapiConstructed := false, calls := [] }
  else if subscribers.isEmpty then
    { ret := false, status := "error",
      error_message := some ("No subscribers to report to"),
      vapiConstructed := false, calls := [] }
  else
    let episodes_text := format_episodes_for_prompt results
    match vapiCallerInit [env.private_api_key.getD (""),
        env.spotify_assistant_id.getD (""), env.spotify_phone_number_id.getD ("")] with
    | .typeError m =>
      { ret := false, status := "error",
        error_message := some ("Report error: " ++ m),
        vapiConstructed := false, calls := [] }
    | .ok _ _ =>
      { ret := true, status := "completed", error_message := none,
        vapiConstructed := true,
        calls := subscriberCallLoop (fun s => callFn s episodes_text) subscribers }

/-! ## SpotifyScout fetch wrapper and the POST /spotify-scout/run controller
(src/scouts/spotifyScout.py, src/api.py). -/

/-- Outcome of `self.spotify_api.search("physics", search_type="episode",
limit=50)`: the request can raise, the decoded body can lack the
`episodes` key (in which case the `len(...)` debug print raises `KeyError`
before the explicit check), or it carries the item list. -/
inductive SearchOutcome where
  | raised (msg : String)
  | noEpisodesKey
  | items (eps : List RawEpisode)

/-- `SpotifyScout.fetch_physics_episodes`: missing Spotify credentials make
`_initialize_spotify` raise (caught: status `error`, empty result); a raised
search or a body without `episodes` also ends in `error`; otherwise the
60-day filter loop runs and status is `completed`.  Returns the episode
list together with the final `status` field. -/
def fetch_physics_episodes (env : SpotifyEnv) (search : SearchOutcome)
    (now : Int) : List EpisodeRecord × String :=
  if check_spotify_config env = false then ([], "error")
  else
    match search with
    | .raised _ => ([], "error")
    | .noEpisodesKey => ([], "error")
    | .items eps => (fetch_physics_episodes_filter now eps, "completed")

/-- The attribute names bound by the body of `class SpotifyScout` (methods
of src/scouts/spotifyScout.py). -/
def spotify_scout_method_names : List String :=
  ["__init__", "_initialize_spotify", "fetch_physics_episodes",
   "check_spotify_config", "check_vapi_config", "format_episodes_for_prompt",
   "report_results", "format_episodes_for_display"]

/-- Attribute lookup for `scout.get_recent_episodes` in the controller
(src/api.py line 91).  `class SpotifyScout` defines no such attribute —
see `spotify_scout_method_names` — so the lookup yields nothing and the
access raises `AttributeError`; `none` models exactly that. -/
def spotify_get_recent_episodes :
    Option (List EpisodeRecord → Int → List EpisodeRecord) :=
  if "get_recent_episodes" ∈ spotify_scout_method_names then none else none

/-- A controller response: a 200 JSON body or a `JSONResponse` carrying an
HTTP status code and an error string. -/
inductive ApiResp where
  | okJson (success : Bool) (message : String) (episodes : List EpisodeRecord)
  | jsonError (statusCode : Nat) (error : String)
deriving DecidableEq

/-- The message of the `AttributeError` raised by
`scout.get_recent_episodes` (Python quotes the class and attribute names;
the quote characters are omitted here). -/
def getRecentEpisodesAttrErr : String :=
  "SpotifyScout object has no attribute get_recent_episodes"

/-- `POST /spotify-scout/run` (src/api.py, `run_spotify_scout`): config
checks, fetch, empty-fetch success, then `scout.get_recent_episodes()` —
which raises `AttributeError`, caught by the endpoint handler and turned
into a generic 500.  The `some` branch embeds the remaining controller
lines (92-107), which are unreachable because the attribute is absent. -/
def run_spotify_scout (env : SpotifyEnv) (search : SearchOutcome) (now : Int)
    (callFn : Subscriber → String → CallResult) : ApiResp :=
  if check_spotify_config env = false then
    .jsonError 500 ("Spotify not configured. Check environment variables.")
  else if spotify_check_vapi_config env = false then
    .jsonError 500 ("Vapi not configured. Check environment variables.")
  else
    let episodes := (fetch_physics_episodes env search now).1
    if episodes.isEmpty then
      .okJson true ("No physics episodes found in the past 60 days") []
    else
      match spotify_get_recent_episodes with
      | none => .jsonError 500 ("Internal server error: " ++ getRecentEpisodesAttrErr)
      | some f =>
        let recent := f episodes now
        if recent.isEmpty then
          .okJson true ("No recent physics episodes found") []
        else
          let rep := spotify_report_results env episodes spotify_subscribers callFn
          .okJson rep.ret ("Spotify scout completed. Found " ++ natToStr recent.length
            ++ " recent physics episodes.") recent

/-! ## BirthdayScout (src/scouts/birthdayScout.py) -/

/-- The `birthday_record` dict: `year` stays a digit string, `month` and
`day` are parsed integers; `None` is `Option.none`. -/
structure BirthdayRecord where
  name : String
  year : Option String
  month : Option Nat
  day : Option Nat
deriving DecidableEq

/-- Python truthiness of the `month` / `day` fields: `None` and `0` are
falsy. -/
def optNatTruthy : Option Nat → Bool
  | none => false
  | some n => n != 0

/-- The `name` entry of the `birthday_record` dict:
`row[1] if len(row) > 1 and row[1] else ""`. -/
def rowName (row : List String) : String :=
  if row.length > 1 ∧ (row.getD 1 ("") == "") = false then row.getD 1 ("") else ""

/-- The `year` entry: cell 2 when it is a digit string other than
`"null"`, else `None`. -/
def rowYear (row : List String) : Option String :=
  if row.length > 2 ∧ (row.getD 2 ("") == "") = false
      ∧ pyIsDigit (row.getD 2 ("")) = true ∧ (row.getD 2 ("") == "null") = false
  then some (row.getD 2 ("")) else none

/-- The `month` entry: `int(row[3])` when cell 3 is a digit string, else
`None`. -/
def rowMonth (row : List String) : Option Nat :=
  if row.length > 3 ∧ (row.getD 3 ("") == "") = false
      ∧ pyIsDigit (row.getD 3 ("")) = true
  then digitsToNat (row.getD 3 ("")).data else none

/-- The `day` entry: `int(row[4])` when cell 4 is a digit string, else
`None`. -/
def rowDay (row : List String) : Option Nat :=
  if row.length > 4 ∧ (row.getD 4 ("") == "") = false
      ∧ pyIsDigit (row.getD 4 ("")) = true
  then digitsToNat (row.getD 4 ("")).data else none

/-- One iteration of the `fetch_birthdays` row loop: rows shorter than 4
cells are skipped; the `birthday_record` dict is built from the cells; the
record qualifies only when `name`, `month` and `day` are all truthy. -/
def rowRecord (row : List String) : Option BirthdayRecord :=
  if row.length ≥ 4 then
    if (rowName row == "") = false ∧ optNatTruthy (rowMonth row) = true
        ∧ optNatTruthy (rowDay row) = true
    then some ⟨rowName row, rowYear row, rowMonth row, rowDay row⟩
    else none
  else none

/-- The row loop of `fetch_birthdays` over `values[1:]` (the header row is
skipped), appending each qualifying record. -/
def fetch_birthday_rows (values : List (List String)) : List BirthdayRecord :=
  match values with
  | [] => []
  | _header :: rest =>
    rest.foldl (fun acc row =>
      match rowRecord row with
      | some r => acc ++ [r]
      | none => acc) []

/-- The loop builds exactly the `filterMap` of `rowRecord` over the
non-header rows: every appended record comes from `rowRecord` of its row,
and rows with `rowRecord row = none` contribute nothing. -/
theorem fetch_birthday_rows_eq (values : List (List String)) :
    fetch_birthday_rows values = (values.drop 1).filterMap rowRecord := by
  cases values with
  | nil => rfl
  | cons header rest =>
    show rest.foldl _ [] = rest.filterMap rowRecord
    have h : ∀ (l : List (List String)) (acc : List BirthdayRecord),
        l.foldl (fun acc row =>
          match rowRecord row with
          | some r => acc ++ [r]
          | none => acc) acc = acc ++ l.filterMap rowRecord := by
      intro l
      induction l with
      | nil => simp
      | cons row l ih =>
        intro acc
        cases hr : rowRecord row with
        | none => simp [List.foldl_cons, hr, ih]
        | some r => simp [List.foldl_cons, hr, ih]
    simpa using h rest []

/-- Mutable scout state shared by the fetch and report methods. -/
structure BirthdayScoutState where
  results : List BirthdayRecord
  status : String
  error_message : Option String
deriving DecidableEq

/-- Outcome of `self.worksheet.get_all_values()` (after gspread setup,
which can also raise). -/
inductive SheetOutcome where
  | raised (msg : String)
  | values (rows : List (List String))

/-- `BirthdayScout.fetch_birthdays` as a state transformer: a raised
spreadsheet interaction ends in status `error` with the message recorded;
an empty sheet completes with an empty list (leaving `results` untouched);
otherwise the row loop runs, `results` is set, and status is `completed`.
The method never inspects the incoming `status`. -/
def fetch_birthdays (st : BirthdayScoutState) (sheet : SheetOutcome) :
    List BirthdayRecord × BirthdayScoutState :=
  match sheet with
  | .raised msg =>
    ([], { st with status := "error", error_message := some ("Fetch error: " ++ msg) })
  | .values rows =>
    if rows.isEmpty then ([], { st with status := "completed" })
    else
      let birthdays := fetch_birthday_rows rows
      (birthdays, { st with results := birthdays, status := "completed" })

/-- `BirthdayScout.get_todays_birthdays`: the stored records whose `month`
and `day` equal the current month and day (the `year` field is never
consulted). -/
def get_todays_birthdays (results : List BirthdayRecord)
    (todayMonth todayDay : Nat) : List BirthdayRecord :=
  if results.isEmpty then []
  else results.filter (fun b =>
    b.month == some todayMonth && b.day == some todayDay)

/-- The environment variables read in `BirthdayScout.__init__`. -/
structure BirthdayEnv where
  private_api_key : Option String
  assistant_id : Option String
deriving DecidableEq

/-- The `error_message` written by `BirthdayScout.check_vapi_config` when a
variable is missing (`none` when the check passes). -/
def birthday_vapi_config_error (env : BirthdayEnv) : Option String :=
  if truthy env.private_api_key = false then
    some ("PRIVATE_API_KEY environment variable not set")
  else if truthy env.assistant_id = false then
    some ("ASSISTANT_ID environment variable not set")
  else none

/-- `BirthdayScout.check_vapi_config`. -/
def birthday_check_vapi_config (env : BirthdayEnv) : Bool :=
  truthy env.private_api_key && truthy env.assistant_id

/-- `BirthdayScout.format_birthdays_for_prompt`. -/
def format_birthdays_for_prompt (birthdays : List BirthdayRecord) : String :=
  if birthdays.isEmpty then "No birthdays today"
  else
    let formatted := birthdays.filterMap (fun b =>
      if (b.name == "") = false && optNatTruthy b.month && optNatTruthy b.day then
        some (b.name ++ " (" ++ natToStr (b.month.getD 0) ++ "/"
          ++ natToStr (b.day.getD 0) ++ ")")
      else none)
    if formatted.isEmpty then "No birthdays today"
    else String.intercalate (", ") formatted

/-- Result of one `BirthdayScout.report_results` run. -/
structure BirthdayReport where
  ret : Bool
  st : BirthdayScoutState
  vapiConstructed : Bool
  calls : List (String × CallResult)

/-- `BirthdayScout.report_results`: config check, subscriber check, the
zero-birthdays short-circuit (success, no `VapiCaller`), then a correctly
two-argument `VapiCaller` construction and the subscriber loop (the loop
also passes a `call_name`, which does not influence any modelled
observable).  The method never inspects the incoming `status`. -/
def birthday_report_results (env : BirthdayEnv) (st : BirthdayScoutState)
    (subscribers : List Subscriber) (todayMonth todayDay : Nat)
    (callFn : Subscriber → String → CallResult) : BirthdayReport :=
  if birthday_check_vapi_config env = false then
    ⟨false,
      { st with status := "error", error_message := birthday_vapi_config_error env },
      false, []⟩
  else if subscribers.isEmpty then
    ⟨false,
      { st with status := "error", error_message := some ("No subscribers to report to") },
      false, []⟩
  else
    let todays := get_todays_birthdays st.results todayMonth todayDay
    if todays.isEmpty then
      ⟨true, { st with status := "completed" }, false, []⟩
    else
      let birthdays_text := format_birthdays_for_prompt todays
      match vapiCallerInit [env.private_api_key.getD (""), env.assistant_id.getD ("")] with
      | .typeError m =>
        ⟨false,
          { st with status := "error", error_message := some ("Report error: " ++ m) },
          false, []⟩
      | .ok _ _ =>
        ⟨true, { st with status := "completed" }, true,
          subscriberCallLoop (fun s => callFn s birthdays_text) subscribers⟩

/-! ## GoogleFlightsScout (src/scouts/googleFlightsScout.py) -/

/-- The environment variables read in `GoogleFlightsScout.__init__`. -/
structure FlightsEnv where
  search_api_key : Option String
  private_api_key : Option String
  flights_assistant_id : Option String
  flights_phone_number_id : Option String
deriving DecidableEq

/-- `GoogleFlightsScout.check_search_api_config`. -/
def check_search_api_config (env : FlightsEnv) : Bool :=
  truthy env.search_api_key

/-- `GoogleFlightsScout.check_vapi_config`. -/
def flights_check_vapi_config (env : FlightsEnv) : Bool :=
  truthy env.private_api_key && truthy env.flights_assistant_id
    && truthy env.flights_phone_number_id

def departure_airport : String := "FLL"

def max_price : Int := 500

/-- `GoogleFlightsScout._get_european_airports`. -/
def european_airports : List String :=
  ["LHR", "CDG", "AMS", "FRA", "MAD", "BCN", "MXP", "FCO", "ZRH", "VIE",
   "BRU", "CPH", "ARN", "OSL", "HEL", "DUB", "EDI", "MAN", "LGW", "STN",
   "ORY", "NCE", "TLS", "BOD", "BER", "MUC", "DUS", "CGN", "HAM", "STR",
   "MIL", "NAP", "BRI", "BGO", "TRD", "GOT", "MAL", "VLC", "BIL", "SVQ"]

/-- `GoogleFlightsScout._get_return_date`: parse the outbound date and add
7 days (`none` is the `ValueError` path for an unparsable argument). -/
def get_return_date (outbound : String) : Option String :=
  (strptimeYmd outbound).map (fun d => strftimeYmd (addDaysYmd d 7))

/-- `GoogleFlightsScout._get_search_dates`: `today + timedelta(days=30+i*30)`
for `i` in `range(6)`, rendered as `YYYY-MM-DD` (the current date is passed
in as a calendar day). -/
def get_search_dates (nowD : Ymd) : List String :=
  (List.range 6).map (fun i => strftimeYmd (addDaysYmd nowD (30 + i * 30)))

/-- An entry of `data["flight_options"]`, restricted to the keys read via
`option.get(...)` (an absent key is `none`, matching the `get` defaults). -/
structure RawFlightOption where
  price : Option Int
  book_with : Option String
  flight_numbers : List String
  duration : Option String
  stops : Option String
deriving DecidableEq

/-- The `flight_info` dict built by `_search_flights_to_airport`. -/
structure FlightInfo where
  departure_airport : String
  arrival_airport : String
  outbound_date : String
  return_date : String
  price : Int
  airline : String
  flight_numbers : List String
  duration : String
  stops : String
deriving DecidableEq

def mkFlightInfo (arrival outbound retDate : String) (o : RawFlightOption) :
    FlightInfo :=
  ⟨departure_airport, arrival, outbound, retDate, o.price.getD 0,
    o.book_with.getD ("Unknown"), o.flight_numbers,
    o.duration.getD ("Unknown"), o.stops.getD ("Unknown")⟩

/-- One iteration of the option loop in `_search_flights_to_airport`:
options with `price <= max_price` are appended, others skipped. -/
def flight_option_step (arrival outbound retDate : String)
    (acc : List FlightInfo) (o : RawFlightOption) : List FlightInfo :=
  if o.price.getD 0 ≤ max_price then acc ++ [mkFlightInfo arrival outbound retDate o]
  else acc

/-- `GoogleFlightsScout._search_flights_to_airport`: computing the return
date can raise `ValueError`, and the HTTP search can raise or return a body
without `flight_options` (both modelled by `none`); every failure is caught
and yields `[]`.  Otherwise the option loop filters by price. -/
def search_flights_to_airport (resp : Option (List RawFlightOption))
    (arrival outbound : String) : List FlightInfo :=
  match get_return_date outbound with
  | none => []
  | some retDate =>
    match resp with
    | none => []
    | some opts => opts.foldl (flight_option_step arrival outbound retDate) []

/-- The inner date loop of `fetch_flight_deals`, extending the accumulated
flight list (the `time.sleep(0.5)` throttle has no modelled effect). -/
def flights_date_step (resp : String → String → Option (List RawFlightOption))
    (ap : String) (acc : List FlightInfo) (d : String) : List FlightInfo :=
  acc ++ search_flights_to_airport (resp ap d) ap d

/-- `GoogleFlightsScout.fetch_flight_deals`: config check, the nested
airport × date search loop, then `sort(key=price)` and truncation to the
cheapest 20.  Returns the results with the final `status`. -/
def fetch_flight_deals (env : FlightsEnv)
    (resp : String → String → Option (List RawFlightOption)) (nowD : Ymd) :
    List FlightInfo × String :=
  if check_search_api_config env = false then ([], "error")
  else
    let all_flights := european_airports.foldl
      (fun acc ap => (get_search_dates nowD).foldl (flights_date_step resp ap) acc) []
    let sorted := all_flights.mergeSort (fun a b => decide (a.price ≤ b.price))
    (sorted.take 20, "completed")

/-- `GoogleFlightsScout.format_flights_for_prompt`. -/
def format_flights_for_prompt (flights : List FlightInfo) : String :=
  if flights.isEmpty then
    "No flight deals found under $500 to Europe from FLL"
  else
    let formatted := flights.filterMap (fun f =>
      if (f.departure_airport == "") = false && (f.arrival_airport == "") = false
          && (f.outbound_date == "") = false then
        some (f.departure_airport ++ " to " ++ f.arrival_airport ++ " ($"
          ++ natToStr f.price.toNat ++ ") - " ++ f.airline ++ " - Out: "
          ++ f.outbound_date ++ ", Return: " ++ f.return_date)
      else none)
    if formatted.isEmpty then
      "No flight deals found under $500 to Europe from FLL"
    else
      "Found " ++ natToStr formatted.length ++ " flight deals under $500:\n"
        ++ String.intercalate ("\n") formatted

/-- `GoogleFlightsScout.report_results`: config check, subscriber-phone
check, then `VapiCaller(key, assistant_id, phone_number_id)` — again three
positional arguments against the two-parameter `__init__` — so `TypeError`
is raised, caught, and `False` returned before any call. -/
def flights_report_results (env : FlightsEnv) (results : List FlightInfo)
    (subscriber_phone : String) (callFn : String → String → CallResult) :
    ReportOutcome :=
  if flights_check_vapi_config env = false then
    { ret := false, status := "error", error_message := none,
      vapiConstructed := false, calls := [] }
  else if subscriber_phone == "" then
    { ret := false, status := "error",
      error_message := some ("No subscriber phone number to report to"),
      vapiConstructed := false, calls := [] }
  else
    let flights_text := format_flights_for_prompt results
    match vapiCallerInit [env.private_api_key.getD (""),
        env.flights_assistant_id.getD (""), env.flights_phone_number_id.getD ("")] with
    | .typeError m =>
      { ret := false, status := "error",
        error_message := some ("Report error: " ++ m),
        vapiConstructed := false, calls := [] }
    | .ok _ _ =>
      match callFn subscriber_phone flights_text with
      | .errDict _ _ =>
        { ret := false, status := "error", error_message := none,
          vapiConstructed := true,
          calls := [(subscriber_phone, callFn subscriber_phone flights_text)] }
      | .ok body =>
        { ret := true, status := "completed", error_message := none,
          vapiConstructed := true, calls := [(subscriber_phone, .ok body)] }

/-! ## The generic Scout model (src/models/scout.py) -/

/-- The pydantic `Scout` model: configuration plus mutable state.  The
placeholder results are `(source, data)` pairs and processing wraps them
with a timestamp string (passed in for `datetime.now().isoformat()`). -/
structure ScoutModel where
  name : String
  target_url : Option String
  results : List (String × String)
  status : String
  error_message : Option String
deriving DecidableEq

/-- `Scout.fetch`: sets status `fetching`, then either stores the
placeholder result (leaving status `fetching`) or fails with no target. -/
def scout_fetch (s : ScoutModel) : Bool × ScoutModel :=
  if truthy s.target_url then
    (true,
      { s with status := "fetching", results := [(s.target_url.getD (""), "fetched_data")] })
  else
    (false,
      { s with status := "error", error_message := some ("No target URL specified") })

/-- `Scout.process`: sets status `processing`; errors on empty results,
otherwise marks each result processed and sets status `processed`. -/
def scout_process (timeStr : String) (s : ScoutModel) : Bool × ScoutModel :=
  if s.results.isEmpty then
    (false, { s with status := "error", error_message := some ("No data to process") })
  else
    (true,
      { s with status := "processed", results := s.results.map (fun r => (r.1, timeStr)) })

/-- `Scout.check_if_results`. -/
def scout_check_if_results (s : ScoutModel) : Bool :=
  decide (s.results.length > 0)

/-- `Scout.send_results`: sets status `sending`; errors on empty results,
otherwise completes. -/
def scout_send_results (s : ScoutModel) : Bool × ScoutModel :=
  if scout_check_if_results s = false then
    (false, { s with status := "error", error_message := some ("No results to send") })
  else
    (true, { s with status := "completed" })

/-- `Scout.run`: fetch → process → check → send, aborting on the first
failed step; no step consults the stored `status` before doing its work. -/
def scout_run (timeStr : String) (s : ScoutModel) : Bool × ScoutModel :=
  let s0 := { s with status := "running" }
  let f := scout_fetch s0
  if f.1 = false then (false, f.2)
  else
    let p := scout_process timeStr f.2
    if p.1 = false then (false, p.2)
    else if scout_check_if_results p.2 = false then
      (true, { p.2 with status := "completed", error_message := some ("No results found") })
    else
      let snd := scout_send_results p.2
      if snd.1 = false then (false, snd.2)
      else (true, { snd.2 with status := "completed" })

/-! ## Concrete instances for the claim theorems -/

/-- Noon of 2025-10-12 as a `datetime.now()` instant. -/
def nowNoonOct12 : Int := tsOfYmd ⟨2025, 10, 12⟩ + 43200

def epToday : RawEpisode :=
  ⟨"Quantum Mechanics Weekly", "A physics podcast", "2025-10-12", 1800000,
    "en", false, "", "ep-1"⟩

/-- An episode released 90 days before 2025-10-12. -/
def epNinetyDaysPast : RawEpisode :=
  { epToday with release_date := "2025-07-14", id := "ep-90" }

/-- An episode dated 20 days after 2025-10-12. -/
def epFuture : RawEpisode :=
  { epToday with release_date := "2025-11-01", id := "ep-future" }

def spotifyEnvAllSet : SpotifyEnv :=
  ⟨some ("client-id"), some ("client-secret"), some ("private-key"),
    some ("assistant-id"), some ("phone-number-id")⟩

def flightsEnvAllSet : FlightsEnv :=
  ⟨some ("search-key"), some ("private-key"), some ("assistant-id"),
    some ("phone-number-id")⟩

def birthdayEnvAllSet : BirthdayEnv :=
  ⟨some ("private-key"), some ("assistant-id")⟩

def dummyCallOk : Subscriber → String → CallResult :=
  fun _ _ => CallResult.ok JVal.null

/-! ## Claims -/

/-- Claim C1: the spec says the controller narrows the fetched episodes to
a 7-day window through `scout.get_recent_episodes()` so that the endpoint
reports only recent episodes.  The controller (src/api.py line 91) indeed
calls that method, but `class SpotifyScout` never defines it, so with both
configs set and a non-empty fetch the call raises `AttributeError` and the
endpoint answers a generic 500 instead: the code contradicts its own
caller.  Evaluated here at a fully configured environment and a search
returning one episode released on the current day. -/
theorem c1_get_recent_episodes_attribute_error :
    ("get_recent_episodes" ∈ spotify_scout_method_names) = False
    ∧ run_spotify_scout spotifyEnvAllSet (.items [epToday]) nowNoonOct12 dummyCallOk
        = .jsonError 500 ("Internal server error: " ++ getRecentEpisodesAttrErr) := by
  refine ⟨by simp [spotify_scout_method_names], by decide⟩

/-- Claim C2 (counterexample): the claim says every episode whose parsed
release date falls outside the closed interval [today - 60 days, today] is
excluded.  The episode dated 2025-11-01 parses to a date strictly after
the fetch instant (noon 2025-10-12), hence outside that interval, yet the
fetch filter returns it: the source only checks the lower bound. -/
theorem c2_counterexample_future_episode_kept :
    strptimeYmd epFuture.release_date = some ⟨2025, 11, 1⟩
    ∧ tsOfYmd ⟨2025, 11, 1⟩ > nowNoonOct12
    ∧ fetch_physics_episodes_filter nowNoonOct12 [epFuture]
        = [episodeRecordOf epFuture] := by
  refine ⟨by decide, by decide, by decide⟩

/-- Claim C2 (amended): `fetch_physics_episodes` keeps exactly the episodes
whose `release_date` is a nonempty string parsing as `YYYY-MM-DD` to a date
no earlier than the fetch instant minus 60 days — episodes that fail to
parse or are older are excluded, but no upper bound is applied, so
future-dated episodes are retained.  In particular an episode released 90
days in the past yields an empty result. -/
theorem c2_sixty_day_lower_bound_filter :
    (∀ (now : Int) (eps : List RawEpisode),
      fetch_physics_episodes_filter now eps
        = eps.filterMap (fun e =>
            if episodeWithinWindow now e then some (episodeRecordOf e) else none))
    ∧ fetch_physics_episodes spotifyEnvAllSet (.items [epNinetyDaysPast]) nowNoonOct12
        = ([], "completed") := by
  refine ⟨fetch_physics_episodes_filter_eq, by decide⟩

/-- Claim C3: `VapiCaller.__init__` takes two credential parameters, while
the Spotify and flights reporters construct it with three positional
arguments; under a passing config check and a present subscriber (list),
both `report_results` methods therefore hit `TypeError`, catch it, end in
status `error`, and return `False` — never `True`. -/
theorem c3_report_results_never_true
    (envS : SpotifyEnv) (resultsS : List EpisodeRecord) (subsS : List Subscriber)
    (callFnS : Subscriber → String → CallResult)
    (envF : FlightsEnv) (resultsF : List FlightInfo) (phoneF : String)
    (callFnF : String → String → CallResult)
    (hS : spotify_check_vapi_config envS = true) (hsub : subsS ≠ [])
    (hF : flights_check_vapi_config envF = true) (hph : phoneF ≠ "") :
    (spotify_report_results envS resultsS subsS callFnS).ret = false
    ∧ (spotify_report_results envS resultsS subsS callFnS).status = "error"
    ∧ (flights_report_results envF resultsF phoneF callFnF).ret = false
    ∧ (flights_report_results envF resultsF phoneF callFnF).status = "error" := by
  have hsub' : subsS.isEmpty = false := by
    simpa [List.isEmpty_iff] using hsub
  have hph' : (phoneF == "") = false := beq_eq_false_iff_ne.mpr hph
  refine ⟨?_, ?_, ?_, ?_⟩ <;>
    simp [spotify_report_results, flights_report_results, hS, hF, hsub', hph',
      vapiCallerInit]

theorem c3_witness :
    spotify_check_vapi_config spotifyEnvAllSet = true
    ∧ spotify_subscribers ≠ []
    ∧ flights_check_vapi_config flightsEnvAllSet = true
    ∧ "9548023797" ≠ ""
    ∧ (spotify_report_results spotifyEnvAllSet [] spotify_subscribers dummyCallOk).ret
        = false
    ∧ (flights_report_results flightsEnvAllSet [] ("9548023797")
        (fun _ _ => CallResult.ok JVal.null)).status = "error" := by
  have h := c3_report_results_never_true spotifyEnvAllSet [] spotify_subscribers
    dummyCallOk flightsEnvAllSet [] ("9548023797")
    (fun _ _ => CallResult.ok JVal.null)
    (by decide) (by decide) (by decide) (by decide)
  exact ⟨by decide, by decide, by decide, by decide, h.1, h.2.2.2⟩

/-- Setting a key leaves lookups of other keys unchanged. -/
theorem lookup_dictSet_ne (k k' : String) (v : JVal) (h : (k' == k) = false) :
    ∀ (d : List (String × JVal)),
      List.lookup k' (dictSet d k v) = List.lookup k' d := by
  intro d
  induction d with
  | nil => simp [dictSet, List.lookup, h]
  | cons p rest ih =>
    by_cases hp : p.1 == k
    · have hpk : p.1 = k := eq_of_beq hp
      simp [dictSet, hp, List.lookup, h, hpk]
    · simp [dictSet, hp, List.lookup, ih]

/-- Updating with pairs whose keys differ from `k'` leaves the lookup of
`k'` unchanged. -/
theorem lookup_dictUpdate_ne (k' : String) :
    ∀ (kvs d : List (String × JVal)), (∀ p ∈ kvs, (k' == p.1) = false) →
      List.lookup k' (dictUpdate d kvs) = List.lookup k' d := by
  intro kvs
  induction kvs with
  | nil => intro d _; rfl
  | cons p rest ih =>
    intro d h
    have hp : (k' == p.1) = false := h p (by simp)
    have hrest : ∀ q ∈ rest, (k' == q.1) = false := fun q hq => h q (by simp [hq])
    show List.lookup k' (dictUpdate (dictSet d p.1 p.2) rest) = _
    rw [ih (dictSet d p.1 p.2) hrest, lookup_dictSet_ne p.1 k' p.2 hp]

/-- Claim C4: whatever assistant id, phone number, template variables and
call name reach `make_call_with_variables` — in the repository every call
site passes no extra keyword arguments, and no keyword argument named
`phoneNumberId` exists anywhere — the posted payload carries the fixed
literal `43ed3451-7453-4681-aa40-ab8754875a2d` as `phoneNumberId`; the
`SPOTIFY_REPORTER_PHONE_NUMBER_ID` / `FLIGHTS_REPORTER_PHONE_NUMBER_ID`
environment values never reach the payload. -/
theorem c4_phone_number_id_hardcoded (assistant_id phone_number : String)
    (vv : List (String × JVal)) (call_name : Option String)
    (kwargs : List (String × JVal))
    (h : ∀ p ∈ kwargs, p.1 ≠ "phoneNumberId") :
    List.lookup ("phoneNumberId")
        (make_call_payload assistant_id phone_number vv call_name kwargs)
      = some (JVal.str vapiPhoneNumberIdLiteral) := by
  have hk : ∀ p ∈ kwargs, (("phoneNumberId" : String) == p.1) = false :=
    fun p hp => beq_eq_false_iff_ne.mpr (Ne.symm (h p hp))
  unfold make_call_payload
  by_cases hc : truthy call_name
  · simp only [hc, if_true]
    rw [lookup_dictUpdate_ne _ kwargs _ hk,
      lookup_dictSet_ne ("name") ("phoneNumberId") _ (by decide)]
    rfl
  · simp only [hc, if_false]
    rw [lookup_dictUpdate_ne _ kwargs _ hk]
    rfl

theorem c4_witness :
    (∀ p ∈ ([] : List (String × JVal)), p.1 ≠ "phoneNumberId")
    ∧ List.lookup ("phoneNumberId")
        (make_call_payload ("assistant-id") ("9549559235")
          [("userFirstName", JVal.str ("Daniela"))] none [])
      = some (JVal.str vapiPhoneNumberIdLiteral) := by
  refine ⟨by simp, ?_⟩
  exact c4_phone_number_id_hardcoded ("assistant-id") ("9549559235")
    [("userFirstName", JVal.str ("Daniela"))] none [] (by simp)

/-- Claim C5: with the Vapi config check passing and a non-empty subscriber
list, a run of `BirthdayScout.report_results` in which
`get_todays_birthdays` yields no match returns `True`, ends in status
`completed`, constructs no `VapiCaller`, and places no call. -/
theorem c5_birthday_report_zero_matches_short_circuit
    (env : BirthdayEnv) (st : BirthdayScoutState) (subs : List Subscriber)
    (m d : Nat) (callFn : Subscriber → String → CallResult)
    (hc : birthday_check_vapi_config env = true) (hs : subs ≠ [])
    (ht : get_todays_birthdays st.results m d = []) :
    (birthday_report_results env st subs m d callFn).ret = true
    ∧ (birthday_report_results env st subs m d callFn).st.status = "completed"
    ∧ (birthday_report_results env st subs m d callFn).vapiConstructed = false
    ∧ (birthday_report_results env st subs m d callFn).calls = [] := by
  have hs' : subs.isEmpty = false := by simpa [List.isEmpty_iff] using hs
  refine ⟨?_, ?_, ?_, ?_⟩ <;> simp [birthday_report_results, hc, hs', ht]

theorem c5_witness :
    birthday_check_vapi_config birthdayEnvAllSet = true
    ∧ ([⟨"Daniela", "9549559235"⟩] : List Subscriber) ≠ []
    ∧ get_todays_birthdays (⟨[], "idle", none⟩ : BirthdayScoutState).results 3 15 = []
    ∧ (birthday_report_results birthdayEnvAllSet ⟨[], "idle", none⟩
        [⟨"Daniela", "9549559235"⟩] 3 15 dummyCallOk).ret = true
    ∧ (birthday_report_results birthdayEnvAllSet ⟨[], "idle", none⟩
        [⟨"Daniela", "9549559235"⟩] 3 15 dummyCallOk).vapiConstructed = false := by
  have h := c5_birthday_report_zero_matches_short_circuit birthdayEnvAllSet
    ⟨[], "idle", none⟩ [⟨"Daniela", "9549559235"⟩] 3 15 dummyCallOk
    (by decide) (by decide) (by decide)
  exact ⟨by decide, by decide, by decide, h.1, h.2.2.1⟩

/-- The option loop accumulates the price-filtered flight records. -/
theorem foldl_flight_option_step (ar ob rd : String) :
    ∀ (opts : List RawFlightOption) (acc : List FlightInfo),
      opts.foldl (flight_option_step ar ob rd) acc
        = acc ++ opts.filterMap (fun o =>
            if o.price.getD 0 ≤ max_price then some (mkFlightInfo ar ob rd o)
            else none) := by
  intro opts
  induction opts with
  | nil => simp
  | cons o rest ih =>
    intro acc
    by_cases hp : o.price.getD 0 ≤ max_price
    · simp [flight_option_step, hp, ih]
    · simp [flight_option_step, hp, ih]

/-- Every flight returned by `_search_flights_to_airport` costs at most
`max_price`. -/
theorem mem_search_flights_price (resp : Option (List RawFlightOption))
    (ar ob : String) (f : FlightInfo)
    (hf : f ∈ search_flights_to_airport resp ar ob) : f.price ≤ max_price := by
  unfold search_flights_to_airport at hf
  cases hr : get_return_date ob with
  | none => simp [hr] at hf
  | some rd =>
    cases resp with
    | none => simp [hr] at hf
    | some opts =>
      rw [hr] at hf
      simp only [foldl_flight_option_step, List.nil_append] at hf
      rcases List.mem_filterMap.mp hf with ⟨o, _, ho⟩
      by_cases hp : o.price.getD 0 ≤ max_price
      · rw [if_pos hp] at ho
        cases ho
        simpa [mkFlightInfo] using hp
      · rw [if_neg hp] at ho
        cases ho

/-- The date loop accumulates the per-date search results. -/
theorem foldl_flights_date_step (resp : String → String → Option (List RawFlightOption))
    (ap : String) :
    ∀ (ds : List String) (acc : List FlightInfo),
      ds.foldl (flights_date_step resp ap) acc
        = acc ++ (ds.map (fun d => search_flights_to_airport (resp ap d) ap d)).flatten := by
  intro ds
  induction ds with
  | nil => simp
  | cons d rest ih => intro acc; simp [flights_date_step, ih]

/-- The airport loop accumulates the per-airport, per-date search results. -/
theorem foldl_flights_airport_step
    (resp : String → String → Option (List RawFlightOption)) (nowD : Ymd) :
    ∀ (aps : List String) (acc : List FlightInfo),
      aps.foldl (fun acc ap => (get_search_dates nowD).foldl (flights_date_step resp ap) acc) acc
        = acc ++ (aps.map (fun ap =>
            ((get_search_dates nowD).map
              (fun d => search_flights_to_airport (resp ap d) ap d)).flatten)).flatten := by
  intro aps
  induction aps with
  | nil => simp
  | cons ap rest ih =>
    intro acc
    simp only [List.foldl_cons]
    rw [foldl_flights_date_step resp ap, ih, List.map_cons, List.flatten_cons,
      List.append_assoc]

/-- Claim C6: the flight deals returned by `fetch_flight_deals` are sorted
ascending by price, number at most 20, and all cost at most 500 dollars. -/
theorem c6_flight_deals_sorted_bounded (env : FlightsEnv)
    (resp : String → String → Option (List RawFlightOption)) (nowD : Ymd) :
    List.Sorted (fun a b : FlightInfo => a.price ≤ b.price)
        (fetch_flight_deals env resp nowD).1
    ∧ (fetch_flight_deals env resp nowD).1.length ≤ 20
    ∧ ∀ f ∈ (fetch_flight_deals env resp nowD).1, f.price ≤ 500 := by
  by_cases hcfg : check_search_api_config env = false
  · simp [fetch_flight_deals, hcfg, List.Sorted]
  · unfold fetch_flight_deals
    rw [if_neg hcfg]
    simp only []
    set L := european_airports.foldl
      (fun acc ap => (get_search_dates nowD).foldl (flights_date_step resp ap) acc) []
      with hL
    set S := L.mergeSort (fun a b => decide (a.price ≤ b.price)) with hS
    have hpair : List.Pairwise (fun a b : FlightInfo =>
        (decide (a.price ≤ b.price)) = true) S := by
      rw [hS]
      exact List.sorted_mergeSort
        (fun a b c hab hbc => by
          simp only [decide_eq_true_iff] at hab hbc ⊢
          exact le_trans hab hbc)
        (fun a b => by
          simp only [Bool.or_eq_true, decide_eq_true_iff]
          exact Int.le_total a.price b.price)
        L
    have hsorted : List.Sorted (fun a b : FlightInfo => a.price ≤ b.price) (S.take 20) :=
      (List.Pairwise.sublist (List.take_sublist 20 S) hpair).imp
        (fun h => decide_eq_true_iff.mp h)
    refine ⟨hsorted, ?_, ?_⟩
    · simp [List.length_take]
    · intro f hf
      have hfS : f ∈ S := (List.take_sublist 20 S).subset hf
      have hfL : f ∈ L := List.mem_mergeSort.mp hfS
      rw [hL, foldl_flights_airport_step, List.nil_append] at hfL
      rcases List.mem_flatten.mp hfL with ⟨inner, hinner, hfin⟩
      rcases List.mem_map.mp hinner with ⟨ap, _, hap⟩
      subst hap
      rcases List.mem_flatten.mp hfin with ⟨res, hres, hfres⟩
      rcases List.mem_map.mp hres with ⟨d, _, hd⟩
      subst hd
      exact mem_search_flights_price _ _ _ f hfres

/-- The spreadsheet of the specification scenario: a header row of four
empty cells and one data row for Alice. -/
def scenarioSheet : List (List String) :=
  [["", "", "", ""], ["", "Alice", "1990", "3", "15"]]

def aliceRecord : BirthdayRecord := ⟨"Alice", some ("1990"), some 3, some 15⟩

/-- Claim C7: `get_todays_birthdays` returns exactly the stored records
whose month and day equal the invocation month and day, with the year
field ignored; on the two-row scenario sheet with the invocation date
March 15 it returns exactly the Alice record. -/
theorem c7_todays_birthdays_exact_filter :
    (∀ (results : List BirthdayRecord) (m d : Nat),
      get_todays_birthdays results m d
        = results.filter (fun b => b.month == some m && b.day == some d))
    ∧ fetch_birthday_rows scenarioSheet = [aliceRecord]
    ∧ get_todays_birthdays (fetch_birthday_rows scenarioSheet) 3 15 = [aliceRecord] := by
  refine ⟨?_, by decide, by decide⟩
  intro results m d
  by_cases h : results = []
  · simp [get_todays_birthdays, h]
  · simp [get_todays_birthdays, List.isEmpty_iff, h]

/-- Claim C8: a spreadsheet row without a non-empty name in cell 1, or
without a numeric month in cell 3, or without a numeric day in cell 4,
produces no record (`rowRecord` is `none`); the fetch output is the
`filterMap` of `rowRecord` over the non-header rows, so such a row
contributes nothing to it; and a fetch over any non-empty sheet ends in
status `completed` with `error_message` untouched — the row is dropped
silently. -/
theorem c8_nonqualifying_rows_dropped (row : List String)
    (h : row.getD 1 ("") = ""
      ∨ ¬(row.length > 3 ∧ pyIsDigit (row.getD 3 ("")) = true)
      ∨ ¬(row.length > 4 ∧ pyIsDigit (row.getD 4 ("")) = true)) :
    rowRecord row = none
    ∧ (∀ values, fetch_birthday_rows values = (values.drop 1).filterMap rowRecord)
    ∧ (∀ (st : BirthdayScoutState) (rows : List (List String)),
        rows.isEmpty = false →
          (fetch_birthdays st (.values rows)).2.status = "completed"
          ∧ (fetch_birthdays st (.values rows)).2.error_message = st.error_message) := by
  refine ⟨?_, fetch_birthday_rows_eq, ?_⟩
  · by_cases hlen : row.length ≥ 4
    · rcases h with h1 | h2 | h3
      · have hname : rowName row = "" := by
          have h1' : row[1]?.getD "" = "" := by simpa [List.getD] using h1
          simp [rowName, List.getD, h1']
        simp [rowRecord, hlen, hname]
      · have hm : rowMonth row = none := by
          have : ¬(row.length > 3 ∧ (row.getD 3 ("") == "") = false
              ∧ pyIsDigit (row.getD 3 ("")) = true) := fun hc => h2 ⟨hc.1, hc.2.2⟩
          simp only [rowMonth, this, if_false]
        simp [rowRecord, hlen, hm, optNatTruthy]
      · have hd : rowDay row = none := by
          have : ¬(row.length > 4 ∧ (row.getD 4 ("") == "") = false
              ∧ pyIsDigit (row.getD 4 ("")) = true) := fun hc => h3 ⟨hc.1, hc.2.2⟩
          simp only [rowDay, this, if_false]
        simp [rowRecord, hlen, hd, optNatTruthy]
    · simp [rowRecord, hlen]
  · intro st rows hrows
    refine ⟨?_, ?_⟩ <;> simp [fetch_birthdays, hrows]

theorem c8_witness :
    (((["", "Bob", "1990", "", "15"] : List String).getD 1 ("") = ""
      ∨ ¬((["", "Bob", "1990", "", "15"] : List String).length > 3
          ∧ pyIsDigit ((["", "Bob", "1990", "", "15"] : List String).getD 3 ("")) = true)
      ∨ ¬((["", "Bob", "1990", "", "15"] : List String).length > 4
          ∧ pyIsDigit ((["", "Bob", "1990", "", "15"] : List String).getD 4 ("")) = true))
    ∧ rowRecord ["", "Bob", "1990", "", "15"] = none) := by
  have hh : ((["", "Bob", "1990", "", "15"] : List String).getD 1 ("") = ""
      ∨ ¬((["", "Bob", "1990", "", "15"] : List String).length > 3
          ∧ pyIsDigit ((["", "Bob", "1990", "", "15"] : List String).getD 3 ("")) = true)
      ∨ ¬((["", "Bob", "1990", "", "15"] : List String).length > 4
          ∧ pyIsDigit ((["", "Bob", "1990", "", "15"] : List String).getD 4 ("")) = true)) := by
    refine Or.inr (Or.inl ?_)
    decide
  exact ⟨hh, (c8_nonqualifying_rows_dropped ["", "Bob", "1990", "", "15"] hh).1⟩

/-- The subscriber loop attempts one call per subscriber with a phone
number, independently of the results of earlier calls. -/
theorem subscriberCallLoop_length (callFn : Subscriber → CallResult) :
    ∀ (subs : List Subscriber),
      (subscriberCallLoop callFn subs).length
        = (subs.filter (fun s => !(s.phone == ""))).length := by
  intro subs
  induction subs with
  | nil => rfl
  | cons s rest ih =>
    by_cases hp : s.phone == ""
    · simp [subscriberCallLoop, hp, ih, List.filter_cons]
    · simp [subscriberCallLoop, hp, ih, List.filter_cons]

/-- Claim C9: a request failure inside `make_call_with_variables` — a
raised `RequestException` or a 4xx/5xx answer turned into `HTTPError` by
`raise_for_status` — yields the error-shaped dictionary instead of an
exception; and a birthday report run that reaches the subscriber loop
attempts one call per subscriber with a phone number and still returns
`True`, whatever the individual call results: one failed call never aborts
the run. -/
theorem c9_request_failures_contained
    (post : List (String × JVal) → HttpPostOutcome)
    (assistant_id phone_number : String) (vv : List (String × JVal))
    (call_name : Option String) (kwargs : List (String × JVal))
    (env : BirthdayEnv) (st : BirthdayScoutState) (subs : List Subscriber)
    (m d : Nat) (callFn : Subscriber → String → CallResult)
    (hfail : httpOutcomeFails
        (post (make_call_payload assistant_id phone_number vv call_name kwargs)) = true)
    (hc : birthday_check_vapi_config env = true) (hs : subs ≠ [])
    (ht : get_todays_birthdays st.results m d ≠ []) :
    (∃ msg sc, make_call_with_variables post assistant_id phone_number vv
        call_name kwargs = .errDict msg sc)
    ∧ (birthday_report_results env st subs m d callFn).ret = true
    ∧ (birthday_report_results env st subs m d callFn).calls.length
        = (subs.filter (fun s => !(s.phone == ""))).length := by
  have hs' : subs.isEmpty = false := by simpa [List.isEmpty_iff] using hs
  have ht' : (get_todays_birthdays st.results m d).isEmpty = false := by
    simpa [List.isEmpty_iff] using ht
  refine ⟨?_, ?_, ?_⟩
  · unfold make_call_with_variables
    cases hpost : post (make_call_payload assistant_id phone_number vv call_name kwargs) with
    | raised msg rs => exact ⟨msg, rs, rfl⟩
    | response code body =>
      have : raiseForStatusFails code = true := by
        simpa [httpOutcomeFails, hpost] using hfail
      exact ⟨httpErrorMessage code, some code, by simp [this]⟩
  · simp [birthday_report_results, hc, hs', ht', vapiCallerInit]
  · simp [birthday_report_results, hc, hs', ht', vapiCallerInit,
      subscriberCallLoop_length]

theorem c9_witness :
    httpOutcomeFails ((fun _ => HttpPostOutcome.raised ("Connection refused") none)
        (make_call_payload ("assistant-id") ("9549559235") [] none [])) = true
    ∧ birthday_check_vapi_config birthdayEnvAllSet = true
    ∧ ([⟨"Daniela", "9549559235"⟩, ⟨"Bob", "5551234567"⟩] : List Subscriber) ≠ []
    ∧ get_todays_birthdays [aliceRecord] 3 15 ≠ []
    ∧ (∃ msg sc, make_call_with_variables
        (fun _ => HttpPostOutcome.raised ("Connection refused") none)
        ("assistant-id") ("9549559235") [] none [] = .errDict msg sc)
    ∧ (birthday_report_results birthdayEnvAllSet ⟨[aliceRecord], "idle", none⟩
        [⟨"Daniela", "9549559235"⟩, ⟨"Bob", "5551234567"⟩] 3 15
        (fun _ _ => CallResult.errDict ("Connection refused") none)).ret = true
    ∧ (birthday_report_results birthdayEnvAllSet ⟨[aliceRecord], "idle", none⟩
        [⟨"Daniela", "9549559235"⟩, ⟨"Bob", "5551234567"⟩] 3 15
        (fun _ _ => CallResult.errDict ("Connection refused") none)).calls.length = 2 := by
  have h := c9_request_failures_contained
    (fun _ => HttpPostOutcome.raised ("Connection refused") none)
    ("assistant-id") ("9549559235") [] none []
    birthdayEnvAllSet ⟨[aliceRecord], "idle", none⟩
    [⟨"Daniela", "9549559235"⟩, ⟨"Bob", "5551234567"⟩] 3 15
    (fun _ _ => CallResult.errDict ("Connection refused") none)
    rfl (by decide) (by decide) (by decide)
  refine ⟨rfl, by decide, by decide, by decide, h.1, h.2.1, ?_⟩
  rw [h.2.2]
  decide

/-- A scout state left behind by a previous failure. -/
def c10ErrorState : BirthdayScoutState := ⟨[], "error", some ("previous failure")⟩

def c10Sheet : List (List String) :=
  [["", "Name", "Year", "Month", "Day"], ["", "Carol", "1985", "7", "4"]]

/-- Claim C10 (counterexample): the claim says that once `status` is
`error` no further workflow step executes.  Calling `fetch_birthdays` on a
scout whose status is already `error` nevertheless performs the full
fetch: it parses the sheet, returns the Carol record, and overwrites the
status with `completed`. -/
theorem c10_counterexample_method_runs_after_error :
    c10ErrorState.status = "error"
    ∧ (fetch_birthdays c10ErrorState (.values c10Sheet)).1
        = [⟨"Carol", some ("1985"), some 7, some 4⟩]
    ∧ (fetch_birthdays c10ErrorState (.values c10Sheet)).2.status = "completed" := by
  refine ⟨rfl, by decide, by decide⟩

/-- Claim C10 (amended): no workflow method guards on the stored status.
Each method unconditionally sets its own in-progress status on entry and
proceeds, so its behaviour is identical whether the incoming status is
`error` or `idle`: this holds for `BirthdayScout.fetch_birthdays`,
`BirthdayScout.report_results` and the generic `Scout.run`.  Error
handling is fail-soft per method (each failure is caught, recorded and
reported through the return value), and the controllers stop on falsy
return values, not by consulting `status`. -/
theorem c10_status_never_consulted :
    (∀ (st : BirthdayScoutState) (sheet : SheetOutcome),
      fetch_birthdays st sheet = fetch_birthdays { st with status := "idle" } sheet)
    ∧ (∀ (env : BirthdayEnv) (st : BirthdayScoutState) (subs : List Subscriber)
        (m d : Nat) (callFn : Subscriber → String → CallResult),
      birthday_report_results env st subs m d callFn
        = birthday_report_results env { st with status := "idle" } subs m d callFn)
    ∧ (∀ (timeStr : String) (s : ScoutModel),
      scout_run timeStr s = scout_run timeStr { s with status := "idle" }) := by
  refine ⟨?_, ?_, ?_⟩
  · intro st sheet
    cases st
    cases sheet <;> rfl
  · intro env st subs m d callFn
    cases st
    rfl
  · intro timeStr s
    cases s
    rfl
